import Mathlib

/-!
Verification of the Smart QR Stream application (src/App.tsx,
src/services/geminiService.ts) against its specification.

The app state consists of the scanned-item history, the metadata draft,
and the cooldown references (`lastScanRef`, `lastScanTimeRef`).  The event
handlers are embedded as pure functions on that state; host effects
(beep, toast, clipboard, file download, network) are reflected in the
return values.  Timestamps are `Int` milliseconds, as produced by
`Date.now()`.
-/

/-- The `ScannedItem` record from src/types.ts. -/
structure ScannedItem where
  id : String
  content : String
  format : String
  timestamp : Int
  schoolName : String
  grade : String
  className : String
  inputterName : String
deriving Repr, DecidableEq

/-- The metadata draft state from src/App.tsx (lines 17-22). -/
structure Metadata where
  schoolName : String
  grade : String
  className : String
  inputterName : String
deriving Repr, DecidableEq

/-- Toast kinds used by `showToast` in src/App.tsx. -/
inductive ToastType where
  | success
  | warning
deriving Repr, DecidableEq

/-- The part of the App component state that the handlers read and write:
`items`, `metadata`, `lastScanRef.current`, `lastScanTimeRef.current`. -/
structure AppState where
  items : List ScannedItem
  metadata : Metadata
  lastScan : Option String
  lastScanTime : Int
deriving Repr, DecidableEq

/-- Initial component state: empty history, all metadata fields empty,
`lastScanRef.current = null`, `lastScanTimeRef.current = 0`. -/
def initialState : AppState :=
  { items := []
    metadata := { schoolName := "", grade := "", className := "", inputterName := "" }
    lastScan := none
    lastScanTime := 0 }

/-- Outcome of one `handleScan` call: the new state, whether
`playScanBeep()` ran, and which toast (if any) was shown. -/
structure ScanResult where
  state : AppState
  beeped : Bool
  toast : Option (String × ToastType)
deriving Repr, DecidableEq

/-- Embedding of `handleScan` from src/App.tsx lines 59-96.  `now` is `Date.now()` and
`newId` stands for the generated unique id. -/
def handleScan (s : AppState) (content fmt : String) (now : Int) (newId : String) :
    ScanResult :=
  if s.lastScan = some content ∧ now - s.lastScanTime < 1500 then
    { state := s, beeped := false, toast := none }
  else
    let s1 : AppState := { s with lastScan := some content, lastScanTime := now }
    if s.items.any (fun item => item.content == content) then
      { state := s1, beeped := true, toast := some ("既にスキャン済みです", ToastType.warning) }
    else
      let newItem : ScannedItem :=
        { id := newId
          content := content
          format := fmt
          timestamp := now
          schoolName := s.metadata.schoolName
          grade := s.metadata.grade
          className := s.metadata.className
          inputterName := s.metadata.inputterName }
      { state := { s1 with items := newItem :: s1.items }
        beeped := true
        toast := some ("スキャン成功！", ToastType.success) }

/-- Embedding of `handleDelete` from src/App.tsx lines 98-100: keep the items whose id
differs from the target. -/
def handleDelete (s : AppState) (targetId : String) : AppState :=
  { s with items := s.items.filter (fun item => item.id != targetId) }

/-- Embedding of `handleClear` from src/App.tsx lines 102-107: on confirmation, drop
all items and reset `lastScanRef.current` to null. -/
def handleClear (s : AppState) (confirmed : Bool) : AppState :=
  if confirmed then { s with items := [], lastScan := none } else s

/-- The four input names handled by `handleMetadataChange`. -/
inductive MetaField where
  | schoolName
  | grade
  | className
  | inputterName
deriving Repr, DecidableEq

/-- Update one field of the metadata draft (the
`{ ...metadata, [name]: value }` spread in src/App.tsx line 40). -/
def setField (m : Metadata) (f : MetaField) (v : String) : Metadata :=
  match f with
  | MetaField.schoolName => { m with schoolName := v }
  | MetaField.grade => { m with grade := v }
  | MetaField.className => { m with className := v }
  | MetaField.inputterName => { m with inputterName := v }

/-- Rewrite the four metadata fields of an item to the draft values
(the map body in src/App.tsx lines 45-51). -/
def stampMetadata (m : Metadata) (item : ScannedItem) : ScannedItem :=
  { item with
      schoolName := m.schoolName
      grade := m.grade
      className := m.className
      inputterName := m.inputterName }

/-- Embedding of `handleMetadataChange` from src/App.tsx lines 37-53: update the draft
and rewrite the metadata fields of every existing item. -/
def handleMetadataChange (s : AppState) (f : MetaField) (v : String) : AppState :=
  let newMetadata := setField s.metadata f v
  { s with
      metadata := newMetadata
      items := s.items.map (stampMetadata newMetadata) }

/-- The global one-character replacement `.replace(/"/g, '""')` used by
both exporters: every double-quote character becomes two. -/
def escapeQuotes (s : String) : String :=
  String.mk (s.data.flatMap fun c => if c = '\"' then ['\"', '\"'] else [c])

/-- CSV field quoting used by both exporters (src/App.tsx lines 115-119
and 137-141): enclose in double quotes, doubling internal double quotes. -/
def quoteField (s : String) : String :=
  "\"" ++ escapeQuotes s ++ "\""

/-- The CSV header row (src/App.tsx lines 112 and 133). -/
def csvHeader : String := "学校名,学年,クラス,入力者名,スキャン日時,内容,形式"

/-- One CSV data row (src/App.tsx lines 113-122 / 134-144).  `fmtDate`
stands for `new Date(ts).toLocaleString()`, a host locale function. -/
def csvRow (fmtDate : Int → String) (item : ScannedItem) : String :=
  quoteField item.schoolName ++ "," ++ quoteField item.grade ++ "," ++
    quoteField item.className ++ "," ++ quoteField item.inputterName ++ "," ++
    fmtDate item.timestamp ++ "," ++ quoteField item.content ++ "," ++ item.format

/-- The UTF-8 byte-order mark prepended to the downloaded CSV
(src/App.tsx line 132). -/
def BOM : String := String.singleton (Char.ofNat 0xFEFF)

/-- Embedding of `handleCopyAll` from src/App.tsx lines 109-127: `none` means no
clipboard write happened; `some text` is the text written. -/
def handleCopyAll (fmtDate : Int → String) (s : AppState) : Option String :=
  if s.items.length = 0 then none
  else some (String.intercalate "\n" (csvHeader :: s.items.map (csvRow fmtDate)))

/-- Embedding of `handleDownloadCSV` from src/App.tsx lines 129-155: `none` means no
download was triggered; `some text` is the downloaded file content. -/
def handleDownloadCSV (fmtDate : Int → String) (s : AppState) : Option String :=
  if s.items.length = 0 then none
  else some (BOM ++ String.intercalate "\n" (csvHeader :: s.items.map (csvRow fmtDate)))

/-- Outcome of the single network call inside `analyzeScannedItems`:
either the service responded with `text` or the call threw. -/
inductive NetOutcome where
  | ok (text : String)
  | err (msg : String)
deriving Repr, DecidableEq

/-- Embedding of `analyzeScannedItems` from src/services/geminiService.ts.  `apiKey`
is `process.env.API_KEY` (`none` = undefined; `some ""` is also falsy in
the `!process.env.API_KEY` guard).  `net` is the outcome the network call
would have; the guards return before it is consulted. -/
def analyzeScannedItems (apiKey : Option String) (items : List ScannedItem)
    (net : NetOutcome) : String :=
  if apiKey = none ∨ apiKey = some "" then
    "API Key not configured. Unable to analyze."
  else if items.length = 0 then
    "No items to analyze."
  else
    match net with
    | NetOutcome.ok text =>
        if text = "" then "Could not generate analysis." else text
    | NetOutcome.err _ => "Failed to analyze items. Please try again."

/-- One user-driven transition of the app state: a scan event, a delete
click, a clear click (with the confirm-dialog answer), or an edit of one
metadata input. -/
inductive Step : AppState → AppState → Prop where
  | scan (s : AppState) (content fmt : String) (now : Int) (newId : String) :
      Step s (handleScan s content fmt now newId).state
  | delete (s : AppState) (targetId : String) : Step s (handleDelete s targetId)
  | clear (s : AppState) (confirmed : Bool) : Step s (handleClear s confirmed)
  | meta (s : AppState) (f : MetaField) (v : String) :
      Step s (handleMetadataChange s f v)

/-- States reachable from the initial component state by user events. -/
inductive Reachable : AppState → Prop where
  | init : Reachable initialState
  | step {s t : AppState} : Reachable s → Step s t → Reachable t

/-- Spec-worded row format used for comparison with `csvRow`: every one
of the seven fields double-quote-enclosed (with internal quotes doubled),
in the source's column order. -/
def csvRowAllQuoted (fmtDate : Int → String) (item : ScannedItem) : String :=
  quoteField item.schoolName ++ "," ++ quoteField item.grade ++ "," ++
    quoteField item.className ++ "," ++ quoteField item.inputterName ++ "," ++
    quoteField (fmtDate item.timestamp) ++ "," ++ quoteField item.content ++ "," ++
    quoteField item.format

/-- A sample record with an embedded double quote in the payload. -/
def sampleItem : ScannedItem :=
  { id := "id1", content := "He said \"hi\"", format := "QR_CODE", timestamp := 0,
    schoolName := "School", grade := "1", className := "A", inputterName := "Y" }

/-- Each user-driven transition preserves pairwise-distinct payloads in
the history: the cooldown branch and the duplicate branch leave `items`
untouched, an accepted scan prepends a payload absent from the store,
delete filters, clear empties, and the metadata overwrite keeps every
`content` field. -/
theorem step_preserves_content_nodup {s t : AppState} (hst : Step s t)
    (h : (s.items.map ScannedItem.content).Nodup) :
    (t.items.map ScannedItem.content).Nodup := by
  cases hst with
  | scan content fmt now newId =>
      unfold handleScan
      by_cases h1 : s.lastScan = some content ∧ now - s.lastScanTime < 1500
      · rw [if_pos h1]
        exact h
      · rw [if_neg h1]
        by_cases h2 : s.items.any (fun item => item.content == content) = true
        · simp only [h2, if_true]
          exact h
        · rw [Bool.not_eq_true] at h2
          simp only [h2, if_false, Bool.false_eq_true]
          simp only [List.map_cons, List.nodup_cons]
          refine ⟨?_, h⟩
          intro hmem
          rcases List.mem_map.mp hmem with ⟨item, hitem, hceq⟩
          have := List.any_eq_false.mp h2 item hitem
          simp only [beq_iff_eq] at this
          exact this hceq
  | delete targetId =>
      unfold handleDelete
      exact h.sublist ((List.filter_sublist s.items).map ScannedItem.content)
  | clear confirmed =>
      unfold handleClear
      by_cases hc : confirmed = true
      · rw [if_pos hc]
        simp
      · rw [Bool.not_eq_true] at hc
        subst hc
        simpa using h
  | meta f v =>
      unfold handleMetadataChange
      simp only [List.map_map]
      have hcomp : (ScannedItem.content ∘ stampMetadata (setField s.metadata f v))
          = ScannedItem.content := by
        funext item
        rfl
      rw [hcomp]
      exact h

/-- Claim C1: at every state reachable from the initial one by scan,
delete, clear and metadata-overwrite events, the payloads stored in the
history are pairwise distinct. -/
theorem reachable_contents_nodup (s : AppState) (h : Reachable s) :
    (s.items.map ScannedItem.content).Nodup := by
  induction h with
  | init => simp [initialState]
  | step hr hst ih => exact step_preserves_content_nodup hst ih

/-- Witness for C1: the state after one accepted scan from the initial
state has pairwise-distinct payloads. -/
theorem reachable_contents_nodup_witness :
    (((handleScan initialState "A" "QR_CODE" 0 "id1").state.items.map
        ScannedItem.content)).Nodup :=
  reachable_contents_nodup _
    (Reachable.step Reachable.init (Step.scan initialState "A" "QR_CODE" 0 "id1"))

/-- Claim C2: when the cooldown reference equals the incoming payload and
less than 1500 ms have elapsed, the scan is discarded silently — state
unchanged (so no record is created), no beep, no toast — regardless of
what the history contains. -/
theorem scan_cooldown_silent (s : AppState) (P fmt newId : String) (now : Int)
    (hlast : s.lastScan = some P) (htime : now - s.lastScanTime < 1500) :
    handleScan s P fmt now newId = { state := s, beeped := false, toast := none } := by
  unfold handleScan
  rw [if_pos ⟨hlast, htime⟩]

/-- Witness for C2 at a concrete state: payload "A" rescanned 100 ms
after it was last seen. -/
theorem scan_cooldown_silent_witness :
    handleScan { initialState with lastScan := some "A", lastScanTime := 0 } "A" "QR_CODE" 100 "id1"
      = { state := { initialState with lastScan := some "A", lastScanTime := 0 },
          beeped := false, toast := none } :=
  scan_cooldown_silent _ "A" "QR_CODE" "id1" 100 rfl (by decide)

/-- Claim C3: scanning a payload already present in the history, at least
1500 ms after the previous observation, shows the duplicate warning toast
and leaves the stored items exactly unchanged. -/
theorem scan_duplicate_rejected (s : AppState) (P fmt newId : String) (now : Int)
    (hdup : ∃ item ∈ s.items, item.content = P)
    (helapsed : 1500 ≤ now - s.lastScanTime) :
    (handleScan s P fmt now newId).toast = some ("既にスキャン済みです", ToastType.warning) ∧
    (handleScan s P fmt now newId).state.items = s.items := by
  have hcool : ¬ (s.lastScan = some P ∧ now - s.lastScanTime < 1500) := by
    rintro ⟨-, h2⟩
    omega
  have hany : s.items.any (fun item => item.content == P) = true := by
    rcases hdup with ⟨item, hmem, heq⟩
    simp only [List.any_eq_true, beq_iff_eq]
    exact ⟨item, hmem, heq⟩
  unfold handleScan
  rw [if_neg hcool]
  simp only [hany, if_true]
  exact ⟨trivial, trivial⟩

/-- Witness for C3 at a concrete state: payload "A" is in the one-item
history and is rescanned 2000 ms later. -/
theorem scan_duplicate_rejected_witness :
    (handleScan { initialState with
        items := [{ id := "id1", content := "A", format := "QR_CODE", timestamp := 0,
                    schoolName := "", grade := "", className := "", inputterName := "" }],
        lastScan := some "A", lastScanTime := 0 } "A" "QR_CODE" 2000 "id2").toast
      = some ("既にスキャン済みです", ToastType.warning) ∧
    (handleScan { initialState with
        items := [{ id := "id1", content := "A", format := "QR_CODE", timestamp := 0,
                    schoolName := "", grade := "", className := "", inputterName := "" }],
        lastScan := some "A", lastScanTime := 0 } "A" "QR_CODE" 2000 "id2").state.items
      = [{ id := "id1", content := "A", format := "QR_CODE", timestamp := 0,
           schoolName := "", grade := "", className := "", inputterName := "" }] :=
  scan_duplicate_rejected _ "A" "QR_CODE" "id2" 2000 ⟨_, List.mem_singleton_self _, rfl⟩ (by decide)

/-- Counterexample for C4 as stated: in the produced data row the date
and symbology fields are NOT double-quote-enclosed, so the row differs
from the all-fields-quoted form the claim describes.  The concrete row is
shown literally: the date and the trailing QR_CODE carry no quotes. -/
theorem csv_row_not_all_quoted :
    csvRow (fun _ => "2024/1/1 0:00:00") sampleItem
      = "\"School\",\"1\",\"A\",\"Y\",2024/1/1 0:00:00,\"He said \"\"hi\"\"\",QR_CODE" ∧
    csvRow (fun _ => "2024/1/1 0:00:00") sampleItem
      ≠ csvRowAllQuoted (fun _ => "2024/1/1 0:00:00") sampleItem := by
  constructor
  · decide
  · decide

/-- Claim C4 (amended): for every non-empty store the downloaded CSV text
starts with the U+FEFF byte-order marker, and in every data row the five
free-text fields (school, grade, class, inputter, payload) are
double-quote-enclosed with internal double quotes doubled, while the date
and symbology fields are emitted unquoted; in particular the payload
containing He said "hi" yields the field with the doubled quotes. -/
theorem downloadCSV_bom_and_quoting (fmtDate : Int → String) (s : AppState)
    (h : s.items ≠ []) :
    (∃ rest : String, handleDownloadCSV fmtDate s = some (BOM ++ rest)) ∧
    (∀ item : ScannedItem, csvRow fmtDate item =
        quoteField item.schoolName ++ "," ++ quoteField item.grade ++ "," ++
        quoteField item.className ++ "," ++ quoteField item.inputterName ++ "," ++
        fmtDate item.timestamp ++ "," ++ quoteField item.content ++ "," ++ item.format) ∧
    quoteField "He said \"hi\"" = "\"He said \"\"hi\"\"\"" := by
  refine ⟨?_, fun item => rfl, by decide⟩
  unfold handleDownloadCSV
  have hlen : ¬ s.items.length = 0 := by simpa [List.length_eq_zero] using h
  rw [if_neg hlen]
  exact ⟨_, rfl⟩

/-- Witness for the amended C4 on a concrete one-item store. -/
theorem downloadCSV_bom_and_quoting_witness :
    (∃ rest : String,
        handleDownloadCSV (fun _ => "2024/1/1 0:00:00")
            { initialState with items := [sampleItem] }
          = some (BOM ++ rest)) ∧
    (∀ item : ScannedItem, csvRow (fun _ => "2024/1/1 0:00:00") item =
        quoteField item.schoolName ++ "," ++ quoteField item.grade ++ "," ++
        quoteField item.className ++ "," ++ quoteField item.inputterName ++ "," ++
        (fun _ : Int => "2024/1/1 0:00:00") item.timestamp ++ "," ++
        quoteField item.content ++ "," ++ item.format) ∧
    quoteField "He said \"hi\"" = "\"He said \"\"hi\"\"\"" :=
  downloadCSV_bom_and_quoting (fun _ => "2024/1/1 0:00:00")
    { initialState with items := [sampleItem] } (by decide)

/-- Claim C5: on an empty history both exporters return before doing
anything — no clipboard write and no file download. -/
theorem export_empty_noop (fmtDate : Int → String) (s : AppState) (h : s.items = []) :
    handleCopyAll fmtDate s = none ∧ handleDownloadCSV fmtDate s = none := by
  unfold handleCopyAll handleDownloadCSV
  rw [h]
  exact ⟨rfl, rfl⟩

/-- Witness for C5 at the initial (empty) state. -/
theorem export_empty_noop_witness :
    handleCopyAll (fun _ => "") initialState = none ∧
    handleDownloadCSV (fun _ => "") initialState = none :=
  export_empty_noop (fun _ => "") initialState rfl

/-- Claim C6: a metadata edit keeps the number and order of records and,
record by record, sets the four metadata fields to the new draft values
while leaving content, id, format and timestamp untouched. -/
theorem metadata_overwrite_frame (s : AppState) (f : MetaField) (v : String) :
    (handleMetadataChange s f v).items.length = s.items.length ∧
    List.Forall₂ (fun upd orig =>
        upd.schoolName = (setField s.metadata f v).schoolName ∧
        upd.grade = (setField s.metadata f v).grade ∧
        upd.className = (setField s.metadata f v).className ∧
        upd.inputterName = (setField s.metadata f v).inputterName ∧
        upd.content = orig.content ∧ upd.id = orig.id ∧
        upd.format = orig.format ∧ upd.timestamp = orig.timestamp)
      (handleMetadataChange s f v).items s.items := by
  obtain ⟨items, m0, ls, lt⟩ := s
  unfold handleMetadataChange
  refine ⟨List.length_map _ _, ?_⟩
  induction items with
  | nil => exact List.Forall₂.nil
  | cons a l ih =>
      exact List.Forall₂.cons ⟨rfl, rfl, rfl, rfl, rfl, rfl, rfl, rfl⟩ ih

/-- Claim C7: with pairwise-distinct ids, deleting an absent id leaves
the history unchanged, and deleting a present id removes exactly that
record, keeping the surrounding records in order. -/
theorem delete_removes_exactly_one (s : AppState) (targetId : String)
    (hnodup : (s.items.map ScannedItem.id).Nodup) :
    ((∀ item ∈ s.items, item.id ≠ targetId) → (handleDelete s targetId).items = s.items) ∧
    (∀ l1 item l2, s.items = l1 ++ item :: l2 → item.id = targetId →
        (handleDelete s targetId).items = l1 ++ l2) := by
  constructor
  · intro hall
    unfold handleDelete
    simp only []
    apply List.filter_eq_self.mpr
    intro item hmem
    simpa using hall item hmem
  · intro l1 item l2 hsplit hid
    subst hid
    unfold handleDelete
    rw [hsplit] at hnodup ⊢
    simp only [List.map_append, List.map_cons] at hnodup
    rw [List.nodup_append] at hnodup
    obtain ⟨h1, h2, hdisj⟩ := hnodup
    rw [List.nodup_cons] at h2
    obtain ⟨hnotl2, _⟩ := h2
    simp only []
    rw [List.filter_append]
    have hfl1 : l1.filter (fun it => it.id != item.id) = l1 := by
      apply List.filter_eq_self.mpr
      intro x hx
      have : x.id ≠ item.id := by
        intro he
        exact hdisj (List.mem_map_of_mem _ hx) (by simp [he])
      simpa using this
    have hfl2 : (item :: l2).filter (fun it => it.id != item.id) = l2 := by
      rw [List.filter_cons]
      simp only [bne_self_eq_false, Bool.false_eq_true, if_false]
      apply List.filter_eq_self.mpr
      intro x hx
      have : x.id ≠ item.id := by
        intro he
        exact hnotl2 (he ▸ List.mem_map_of_mem _ hx)
      simpa using this
    rw [hfl1, hfl2]

/-- Witness for C7: deleting the middle record of a three-record history
removes exactly it and keeps the order of the other two. -/
theorem delete_removes_exactly_one_witness :
    (handleDelete { initialState with
        items := [{ id := "id1", content := "A", format := "QR_CODE", timestamp := 0,
                    schoolName := "", grade := "", className := "", inputterName := "" },
                  { id := "id2", content := "B", format := "QR_CODE", timestamp := 1,
                    schoolName := "", grade := "", className := "", inputterName := "" },
                  { id := "id3", content := "C", format := "QR_CODE", timestamp := 2,
                    schoolName := "", grade := "", className := "", inputterName := "" }] }
        "id2").items
      = [{ id := "id1", content := "A", format := "QR_CODE", timestamp := 0,
           schoolName := "", grade := "", className := "", inputterName := "" },
         { id := "id3", content := "C", format := "QR_CODE", timestamp := 2,
           schoolName := "", grade := "", className := "", inputterName := "" }] :=
  (delete_removes_exactly_one _ "id2" (by decide)).2
    [{ id := "id1", content := "A", format := "QR_CODE", timestamp := 0,
       schoolName := "", grade := "", className := "", inputterName := "" }]
    { id := "id2", content := "B", format := "QR_CODE", timestamp := 1,
      schoolName := "", grade := "", className := "", inputterName := "" }
    [{ id := "id3", content := "C", format := "QR_CODE", timestamp := 2,
       schoolName := "", grade := "", className := "", inputterName := "" }]
    rfl rfl

/-- Claim C8: the insight call always yields a string; with a missing or
empty API key it returns the fixed "not configured" text independently of
the network, with an empty list it returns the fixed advisory text
independently of the network, and a throwing call yields the fixed
failure text. -/
theorem analyzeScannedItems_guards (key : String) (items : List ScannedItem)
    (net net2 : NetOutcome) (msg : String) (hkey : key ≠ "") (hitems : items ≠ []) :
    analyzeScannedItems none items net = "API Key not configured. Unable to analyze." ∧
    analyzeScannedItems (some "") items net = "API Key not configured. Unable to analyze." ∧
    analyzeScannedItems none items net = analyzeScannedItems none items net2 ∧
    analyzeScannedItems (some key) [] net = "No items to analyze." ∧
    analyzeScannedItems (some key) [] net = analyzeScannedItems (some key) [] net2 ∧
    analyzeScannedItems (some key) items (NetOutcome.err msg)
      = "Failed to analyze items. Please try again." := by
  have hk : ¬ ((some key : Option String) = none ∨ (some key : Option String) = some "") := by
    simp [hkey]
  unfold analyzeScannedItems
  refine ⟨by simp, by simp, by simp, ?_, ?_, ?_⟩
  · rw [if_neg hk]
    rfl
  · rw [if_neg hk, if_neg hk]
    rfl
  · rw [if_neg hk]
    have hlen : ¬ items.length = 0 := by simpa [List.length_eq_zero] using hitems
    rw [if_neg hlen]

/-- Witness for C8 at concrete inputs. -/
theorem analyzeScannedItems_guards_witness :
    analyzeScannedItems none [] (NetOutcome.ok "x")
      = "API Key not configured. Unable to analyze." ∧
    analyzeScannedItems (some "") [] (NetOutcome.ok "x")
      = "API Key not configured. Unable to analyze." ∧
    analyzeScannedItems none [] (NetOutcome.ok "x")
      = analyzeScannedItems none [] (NetOutcome.err "e") ∧
    analyzeScannedItems (some "k") [] (NetOutcome.ok "x") = "No items to analyze." ∧
    analyzeScannedItems (some "k") [] (NetOutcome.ok "x")
      = analyzeScannedItems (some "k") [] (NetOutcome.err "e") ∧
    analyzeScannedItems (some "k")
        [{ id := "id1", content := "A", format := "QR_CODE", timestamp := 0,
           schoolName := "", grade := "", className := "", inputterName := "" }]
        (NetOutcome.err "boom")
      = "Failed to analyze items. Please try again." := by
  have h := analyzeScannedItems_guards "k"
    [{ id := "id1", content := "A", format := "QR_CODE", timestamp := 0,
       schoolName := "", grade := "", className := "", inputterName := "" }]
    (NetOutcome.ok "x") (NetOutcome.err "e") "boom" (by decide) (by decide)
  exact ⟨by decide, by decide, by decide, h.2.2.2.1, h.2.2.2.2.1, h.2.2.2.2.2⟩

/-- Claim C9: a confirmed clear empties the history and nulls the
cooldown reference, so the very next scan of any payload — at any time,
including the payload seen just before the clear — beeps, succeeds and
creates the single record of the store. -/
theorem clear_resets_cooldown (s : AppState) (P fmt newId : String) (now : Int) :
    (handleClear s true).items = [] ∧
    (handleClear s true).lastScan = none ∧
    (handleScan (handleClear s true) P fmt now newId).beeped = true ∧
    (handleScan (handleClear s true) P fmt now newId).toast
      = some ("スキャン成功！", ToastType.success) ∧
    ((handleScan (handleClear s true) P fmt now newId).state.items.map ScannedItem.content)
      = [P] := by
  unfold handleClear handleScan
  simp

/-- Claim C10: a scan beeps exactly when it is not cooldown-suppressed,
and every beeping scan (accepted or duplicate-rejected) writes its
payload and time into the cooldown references. -/
theorem scan_beep_iff_cooldown_pass (s : AppState) (content fmt newId : String) (now : Int) :
    ((handleScan s content fmt now newId).beeped = true ↔
        ¬ (s.lastScan = some content ∧ now - s.lastScanTime < 1500)) ∧
    ((handleScan s content fmt now newId).beeped = true →
        (handleScan s content fmt now newId).state.lastScan = some content ∧
        (handleScan s content fmt now newId).state.lastScanTime = now) := by
  unfold handleScan
  by_cases h : s.lastScan = some content ∧ now - s.lastScanTime < 1500
  · rw [if_pos h]
    simp [h]
  · rw [if_neg h]
    by_cases h2 : s.items.any (fun item => item.content == content) = true
    · simp [h2, h]
    · rw [Bool.not_eq_true] at h2
      simp [h2, h]

/-- Witness for C10: a duplicate-rejected scan still updates the
cooldown references. -/
theorem scan_beep_iff_cooldown_pass_witness :
    (handleScan { initialState with
        items := [{ id := "id1", content := "A", format := "QR_CODE", timestamp := 0,
                    schoolName := "", grade := "", className := "", inputterName := "" }] }
        "A" "QR_CODE" 2000 "id2").state.lastScan = some "A" ∧
    (handleScan { initialState with
        items := [{ id := "id1", content := "A", format := "QR_CODE", timestamp := 0,
                    schoolName := "", grade := "", className := "", inputterName := "" }] }
        "A" "QR_CODE" 2000 "id2").state.lastScanTime = 2000 :=
  (scan_beep_iff_cooldown_pass _ "A" "QR_CODE" "id2" 2000).2 (by decide)
